import Mathlib

/-!
Verification development for the clavy input-source switcher.

The definitions below are a shallow embedding of the Rust sources:
* `src/observer/input_source.rs` — `InputSourceState`, `input_source`,
  `set_input_source`;
* `src/cmd.rs` (`launch`) — the activation-stream consumer loop and the
  input-source-change-stream consumer loop;
* `src/observer/workspace.rs` — `WorkspaceObserver::new` (allowed-id set
  construction) and `WorkspaceObserver::update` / `window_change_pids`
  (process-churn reconciliation).

OS-level facts that the code queries through FFI (the currently selected
keyboard input source, the list of installed input sources, the resolved
foreground application) are carried in an explicit `Env` record; the
fallibility of `AXObserverCreate`/`subscribe` is an explicit oracle
`canObserve`.
-/

namespace Clavy

/-- The OS-visible state the program queries through FFI:
`current` is what `TISCopyCurrentKeyboardInputSource` reports (its
`kTISPropertyInputSourceID`), `installed` are the input-source ids that
`TISCreateInputSourceList` can locate, and `frontApp` is the result of
`bundle_id_from_current_app` (the two-tier AX-then-frontmost resolution in
`src/util.rs`, whose outcome is an OS fact, kept opaque here). -/
structure Env where
  current : String
  installed : List String
  frontApp : Option String
deriving Repr, DecidableEq

/-- `input_source()` from `src/observer/input_source.rs`: reads the id of
the currently selected keyboard input source. -/
def input_source (env : Env) : String :=
  env.current

/-- `bundle_id_from_current_app()` from `src/util.rs`: resolves the
foreground application's bundle id, `None` on resolution failure. -/
def bundle_id_from_current_app (env : Env) : Option String :=
  env.frontApp

/-- Outcome of `set_input_source`: the returned `bool`, the environment
after the call, and whether `TISSelectInputSource` was actually invoked. -/
structure SetResult where
  ok : Bool
  env : Env
  selected : Bool
deriving Repr, DecidableEq

/-- `set_input_source(id)` from `src/observer/input_source.rs`:
if the current source already has this id, return `true` without touching
anything; otherwise filter the installed sources by id, return `false`
when none matches, and otherwise select the first match and return
`true`. -/
def set_input_source (env : Env) (id : String) : SetResult :=
  if input_source env = id then
    ⟨true, env, false⟩
  else
    let srcs := env.installed.filter (fun s => s = id)
    match srcs.head? with
    | none => ⟨false, env, false⟩
    | some src => ⟨true, { env with current := src }, true⟩

/-- The map inside `InputSourceState` (`src/observer/input_source.rs`):
a `HashMap<String, String>` from bundle id to input-source id, embedded
as an association list whose head entry for a key is its value. -/
abbrev InputSourceState := List (String × String)

/-- `InputSourceState::new()`: the empty map. -/
def InputSourceState.new : InputSourceState := []

/-- `InputSourceState::save(bundle_id, input_source)`: `HashMap::insert`,
an upsert. -/
def InputSourceState.save (st : InputSourceState) (bundle_id source : String) :
    InputSourceState :=
  (bundle_id, source) :: st.filter (fun p => p.1 ≠ bundle_id)

/-- `InputSourceState::load(bundle_id)`: `HashMap::get`, a point lookup. -/
def InputSourceState.load (st : InputSourceState) (bundle_id : String) :
    Option String :=
  (st.find? (fun p => p.1 = bundle_id)).map Prod.snd

theorem InputSourceState.load_save_self (st : InputSourceState)
    (a s : String) : (st.save a s).load a = some s := by
  simp [InputSourceState.save, InputSourceState.load, List.find?]

theorem InputSourceState.find_filter_ne (st : InputSourceState)
    (a k : String) (h : k ≠ a) :
    (st.filter (fun p => p.1 ≠ a)).find? (fun p => p.1 = k)
      = st.find? (fun p => p.1 = k) := by
  induction st with
  | nil => rfl
  | cons x xs ih =>
    by_cases hxa : x.1 = a
    · have hxk : ¬ x.1 = k := fun hk => h (hk ▸ hxa ▸ rfl)
      rw [List.filter_cons_of_neg (by simpa using hxa),
        List.find?_cons_of_neg _ (by simpa using hxk), ih]
    · rw [List.filter_cons_of_pos (by simpa using hxa)]
      by_cases hxk : x.1 = k
      · rw [List.find?_cons_of_pos _ (by simpa using hxk),
          List.find?_cons_of_pos _ (by simpa using hxk)]
      · rw [List.find?_cons_of_neg _ (by simpa using hxk),
          List.find?_cons_of_neg _ (by simpa using hxk), ih]

theorem InputSourceState.load_save_other (st : InputSourceState)
    (a s k : String) (h : k ≠ a) :
    (st.save a s).load k = st.load k := by
  have ha : ¬ (a, s).1 = k := fun hak => h hak.symm
  unfold InputSourceState.save InputSourceState.load
  rw [List.find?_cons_of_neg _ (by simpa using ha),
    InputSourceState.find_filter_ne st a k h]

/-! ## The two consumer loops of `launch` (`src/cmd.rs`) -/

/-- What one iteration of the activation-stream consumer produced: the
loop state `prev_app`, the store, the environment after the iteration,
whether `set_input_source` was called, and whether `save` was called. -/
structure ActResult where
  prev_app : Option String
  store : InputSourceState
  env : Env
  switchCalled : Bool
  storeWritten : Bool
deriving Repr, DecidableEq

/-- One iteration of the activation-stream consumer in `launch`
(`src/cmd.rs`): skip when `prev_app` already holds the arriving app,
otherwise record it, try to restore a cached source, and on a cache miss
or restore failure record the currently active source. -/
def activationStep (env : Env) (prev_app : Option String)
    (store : InputSourceState) (curr_app : String) : ActResult :=
  if prev_app = some curr_app then
    ⟨prev_app, store, env, false, false⟩
  else
    match store.load curr_app with
    | some old_src =>
      let r := set_input_source env old_src
      if r.ok then
        ⟨some curr_app, store, r.env, true, false⟩
      else
        let new_src := input_source r.env
        ⟨some curr_app, store.save curr_app new_src, r.env, true, true⟩
    | none =>
      let new_src := input_source env
      ⟨some curr_app, store.save curr_app new_src, env, false, true⟩

/-- What one iteration of the input-source-change-stream consumer
produced: the loop state `prev`, the store, and whether `save` was
called. -/
structure ChangeResult where
  prev : Option String
  store : InputSourceState
  storeWritten : Bool
deriving Repr, DecidableEq

/-- One iteration of the input-source-change-stream consumer in `launch`
(`src/cmd.rs`): skip when `prev` already holds the arriving source id,
otherwise record it, resolve the current foreground app afresh, and on
success store the new source for it; discard on resolution failure. -/
def changeStep (env : Env) (prev : Option String)
    (store : InputSourceState) (src : String) : ChangeResult :=
  if prev = some src then
    ⟨prev, store, false⟩
  else
    match bundle_id_from_current_app env with
    | none => ⟨some src, store, false⟩
    | some curr_app => ⟨some src, store.save curr_app src, true⟩

/-! ## `WorkspaceObserver` (`src/observer/workspace.rs`) -/

namespace WorkspaceObserver

/-- `WorkspaceObserver::EXCLUDED_APP_IDS`: system apps for which
observers cannot be created or whose hide notifications are unreliable. -/
def EXCLUDED_APP_IDS : List String :=
  ["com.apple.dock",
   "com.apple.universalcontrol",
   "com.apple.controlcenter",
   "com.apple.notificationcenterui"]

/-- `WorkspaceObserver::KNOWN_POPUP_ONLY_APP_IDS`: Spotlight-like apps
that only show a popup window, always allowed. -/
def KNOWN_POPUP_ONLY_APP_IDS : List String :=
  ["com.apple.Spotlight",
   "com.runningwithcrayons.Alfred",
   "at.obdev.LaunchBar",
   "com.raycast.macos",
   "com.googlecode.iterm2",
   "com.xunyong.hapigo",
   "com.hezongyidev.Bob",
   "com.ripperhe.Bob",
   "org.yuanli.utools",
   "com.1password.1password",
   "com.eusoft.eudic.LightPeek",
   "com.contextsformac.Contexts"]

/-- The allowed-id set that `WorkspaceObserver::new` stores in
`ivars.allowed_app_ids`: the caller's ids collected into a set, then the
popup-only allowlist inserted, then the excluded denylist removed. -/
def mkAllowedAppIds (allowed_app_ids : List String) : Finset String :=
  let s := allowed_app_ids.toFinset
  let s := KNOWN_POPUP_ONLY_APP_IDS.foldl (fun acc id => insert id acc) s
  EXCLUDED_APP_IDS.foldl (fun acc id => acc.erase id) s

/-- `WorkspaceObserver::window_change_pids`: among the running
applications (given as pid paired with optional bundle id), keep those
whose bundle id resolves and is allowed, take their pids, and keep only
pids that own at least one window. -/
def window_change_pids (allowed : Finset String)
    (running_apps : List (Int × Option String))
    (windowed_pids : List Int) : Finset Int :=
  (((running_apps.filter (fun app =>
      match app.2 with
      | some bid => decide (bid ∈ allowed)
      | none => false)).map Prod.fst).filter
    (fun pid => windowed_pids.contains pid)).toFinset

/-- The reconciliation loop body of `WorkspaceObserver::update`: pids no
longer in the target set are removed from `children`; pids newly in the
target set are added when `WindowObserver::try_new` and the two
`subscribe` calls succeed (`canObserve`), and skipped otherwise. The map
is keyed by pid, embedded as the `Finset` of its keys. -/
def updateChildren (canObserve : Int → Bool) (children : Finset Int)
    (new_keys : Finset Int) : Finset Int :=
  (children ∩ new_keys) ∪ (new_keys \ children).filter (fun p => canObserve p)

/-- `WorkspaceObserver::update`: recompute the target set from the
current running applications and window owners, then reconcile
`children` against it. -/
def update (canObserve : Int → Bool) (allowed : Finset String)
    (children : Finset Int) (running_apps : List (Int × Option String))
    (windowed_pids : List Int) : Finset Int :=
  updateChildren canObserve children
    (window_change_pids allowed running_apps windowed_pids)

end WorkspaceObserver

/-! ## Helper lemmas -/

theorem head_filter_eq_none_iff (l : List String) (id : String) :
    (l.filter (fun s => s = id)).head? = none ↔ id ∉ l := by
  rw [List.head?_eq_none_iff, List.filter_eq_nil_iff]
  constructor
  · intro h hid
    exact h id hid (by simp)
  · intro h a ha he
    exact h ((decide_eq_true_eq.mp he) ▸ ha)

theorem set_input_source_ok_false_iff (env : Env) (id : String) :
    (set_input_source env id).ok = false ↔
      (input_source env ≠ id ∧ id ∉ env.installed) := by
  unfold set_input_source
  by_cases hc : input_source env = id
  · simp [hc]
  · rcases hh : (env.installed.filter (fun s => s = id)).head? with _ | src
    · have hni : id ∉ env.installed := (head_filter_eq_none_iff _ _).mp hh
      simp [hc, hh, hni]
    · have hmem : src ∈ env.installed.filter (fun s => s = id) := by
        rcases List.head?_eq_some_iff.mp hh with ⟨ys, hys⟩
        rw [hys]; exact List.mem_cons_self _ _
      have hsrc : src = id := by
        have := (List.mem_filter.mp hmem).2
        exact decide_eq_true_eq.mp this
      have hi : id ∈ env.installed := hsrc ▸ (List.mem_filter.mp hmem).1
      simp [hc, hh, hi]

theorem set_input_source_not_ok_elim (env : Env) (id : String)
    (h : (set_input_source env id).ok = false) :
    set_input_source env id = ⟨false, env, false⟩ := by
  unfold set_input_source at h ⊢
  by_cases hc : input_source env = id
  · simp [hc] at h
  · rcases hh : (env.installed.filter (fun s => s = id)).head? with _ | src
    · simp [hc, hh]
    · simp [hc, hh] at h

theorem set_input_source_ok_current (env : Env) (id : String)
    (h : (set_input_source env id).ok = true) :
    (set_input_source env id).env.current = id := by
  unfold set_input_source at h ⊢
  by_cases hc : input_source env = id
  · rw [if_pos hc]
    exact hc
  · rcases hh : (env.installed.filter (fun s => s = id)).head? with _ | src
    · simp [hc, hh] at h
    · have hmem : src ∈ env.installed.filter (fun s => s = id) := by
        rcases List.head?_eq_some_iff.mp hh with ⟨ys, hys⟩
        rw [hys]; exact List.mem_cons_self _ _
      have hsrc : src = id := by
        have := (List.mem_filter.mp hmem).2
        exact decide_eq_true_eq.mp this
      simp [hc, hh, hsrc]

theorem set_input_source_frontApp (env : Env) (id : String) :
    (set_input_source env id).env.frontApp = env.frontApp := by
  unfold set_input_source
  by_cases hc : input_source env = id
  · simp [hc]
  · rcases hh : (env.installed.filter (fun s => s = id)).head? with _ | src
    · simp [hc, hh]
    · simp [hc, hh]

theorem activationStep_of_hit_ok (env : Env) (prev : Option String)
    (store : InputSourceState) (A S : String) (hprev : prev ≠ some A)
    (hload : store.load A = some S) (hok : (set_input_source env S).ok = true) :
    activationStep env prev store A
      = ⟨some A, store, (set_input_source env S).env, true, false⟩ := by
  simp [activationStep, hprev, hload, hok]

theorem activationStep_of_miss (env : Env) (prev : Option String)
    (store : InputSourceState) (A : String) (hprev : prev ≠ some A)
    (hload : store.load A = none) :
    activationStep env prev store A
      = ⟨some A, store.save A (input_source env), env, false, true⟩ := by
  simp [activationStep, hprev, hload]

theorem activationStep_of_hit_fail (env : Env) (prev : Option String)
    (store : InputSourceState) (A S : String) (hprev : prev ≠ some A)
    (hload : store.load A = some S) (hok : (set_input_source env S).ok = false) :
    activationStep env prev store A
      = ⟨some A, store.save A (input_source env), env, true, true⟩ := by
  have he := set_input_source_not_ok_elim env S hok
  simp [activationStep, hprev, hload, hok, he]

theorem activationStep_skip (env : Env) (prev : Option String)
    (store : InputSourceState) (A : String) (h : prev = some A) :
    activationStep env prev store A = ⟨prev, store, env, false, false⟩ := by
  simp [activationStep, h]

theorem activationStep_prev_app (env : Env) (prev : Option String)
    (store : InputSourceState) (A : String) :
    (activationStep env prev store A).prev_app = some A := by
  by_cases h : prev = some A
  · simp [activationStep, h]
  · cases hS : store.load A with
    | none => simp [activationStep, h, hS]
    | some S =>
      by_cases hok : (set_input_source env S).ok = true
      · simp [activationStep, h, hS, hok]
      · simp [activationStep, h, hS, hok]

/-! ## Claim theorems -/

/-- C7: `save(app, src)` followed by `load(app)` returns `Some(src)` for
any store, app and src (save is an upsert, so the prior presence of app
does not matter), and `load` on any key of a fresh store returns
`None`. -/
theorem save_load_roundtrip (st : InputSourceState) (a s b : String) :
    (st.save a s).load a = some s ∧ InputSourceState.new.load b = none :=
  ⟨InputSourceState.load_save_self st a s, rfl⟩

/-- C6 counterexample: with the current input source already equal to the
requested id, `set_input_source` returns `true`, not `false` as the claim
states. -/
theorem set_input_source_already_selected_cex :
    ¬ ((set_input_source
        ⟨"com.apple.keylayout.ABC", ["com.apple.keylayout.ABC"], none⟩
        "com.apple.keylayout.ABC").ok = false) := by
  decide

/-- C6 amended: `set_input_source(id)` returns `false` exactly when the
requested id is not already selected and no installed input source
matches it; it returns `true` both when a switch is actually performed
and, as a no-op, when the id is already selected. -/
theorem set_input_source_ok_spec (env : Env) (id : String) :
    (set_input_source env id).ok = false ↔
      (input_source env ≠ id ∧ id ∉ env.installed) :=
  set_input_source_ok_false_iff env id

/-- C10: when the currently active input source already equals the
requested id, `set_input_source(id)` returns `true` with no
`TISSelectInputSource` call and the environment untouched; the `false`
return occurs only when the id is not selected and no installed input
source matches it. -/
theorem set_input_source_noop_spec (env : Env) (id : String) :
    (input_source env = id →
      set_input_source env id = ⟨true, env, false⟩) ∧
    ((set_input_source env id).ok = false →
      input_source env ≠ id ∧ id ∉ env.installed) := by
  constructor
  · intro h
    simp [set_input_source, h]
  · exact fun h => (set_input_source_ok_false_iff env id).mp h

/-- Witness for C10 at a concrete input where the requested id is already
selected. -/
theorem set_input_source_noop_spec_witness :
    set_input_source ⟨"a", ["a", "b"], none⟩ "a"
      = ⟨true, ⟨"a", ["a", "b"], none⟩, false⟩ :=
  (set_input_source_noop_spec ⟨"a", ["a", "b"], none⟩ "a").1 rfl

/-- C1: for an activation event `A` with `prev_app ≠ Some A`: when the
store holds `A ↦ S` and `set_input_source(S)` succeeds, the store is not
written; when `A` is absent, or the stored source cannot be selected
(`set_input_source` returns `false`), the consumer reads the current
input source and writes it for `A`. -/
theorem activationStep_consumer_cases (env : Env) (prev : Option String)
    (store : InputSourceState) (A : String) (h : prev ≠ some A) :
    (∀ S, store.load A = some S → (set_input_source env S).ok = true →
      activationStep env prev store A
        = ⟨some A, store, (set_input_source env S).env, true, false⟩) ∧
    (store.load A = none →
      activationStep env prev store A
        = ⟨some A, store.save A (input_source env), env, false, true⟩) ∧
    (∀ S, store.load A = some S → (set_input_source env S).ok = false →
      activationStep env prev store A
        = ⟨some A, store.save A (input_source env), env, true, true⟩) :=
  ⟨fun S hS hok => activationStep_of_hit_ok env prev store A S h hS hok,
   fun hS => activationStep_of_miss env prev store A h hS,
   fun S hS hok => activationStep_of_hit_fail env prev store A S h hS hok⟩

/-- Witness for C1 exercising all three branches at concrete inputs:
a cache hit with a successful switch, a cache miss, and a cache hit whose
stored source is no longer installed. -/
theorem activationStep_consumer_cases_witness :
    (activationStep ⟨"C", ["C", "S"], none⟩ none [("A", "S")] "A"
      = ⟨some "A", [("A", "S")],
         (set_input_source ⟨"C", ["C", "S"], none⟩ "S").env, true, false⟩) ∧
    (activationStep ⟨"C", ["C", "S"], none⟩ none InputSourceState.new "M"
      = ⟨some "M",
         InputSourceState.new.save "M" (input_source ⟨"C", ["C", "S"], none⟩),
         ⟨"C", ["C", "S"], none⟩, false, true⟩) ∧
    (activationStep ⟨"C", ["C", "S"], none⟩ none [("B", "Z")] "B"
      = ⟨some "B",
         InputSourceState.save [("B", "Z")] "B"
           (input_source ⟨"C", ["C", "S"], none⟩),
         ⟨"C", ["C", "S"], none⟩, true, true⟩) :=
  ⟨(activationStep_consumer_cases ⟨"C", ["C", "S"], none⟩ none [("A", "S")] "A"
      (by decide)).1 "S" rfl (by decide),
   (activationStep_consumer_cases ⟨"C", ["C", "S"], none⟩ none
      InputSourceState.new "M" (by decide)).2.1 rfl,
   (activationStep_consumer_cases ⟨"C", ["C", "S"], none⟩ none [("B", "Z")] "B"
      (by decide)).2.2 "Z" rfl (by decide)⟩

/-- C2: after any activation of `A` (whatever its outcome), a second
consecutive activation of `A` mutates nothing and calls no switch, even
under a changed environment, because `prev_app` is updated before the
switch attempt; and an activation of an app absent from the store with
`prev_app ≠ Some A` records the currently active source without any
switch call. -/
theorem activation_idem_unknown (env env2 : Env) (prev : Option String)
    (store : InputSourceState) (A : String) :
    (activationStep env2 (activationStep env prev store A).prev_app
        (activationStep env prev store A).store A
      = ⟨(activationStep env prev store A).prev_app,
         (activationStep env prev store A).store, env2, false, false⟩) ∧
    (store.load A = none → prev ≠ some A →
      activationStep env prev store A
        = ⟨some A, store.save A (input_source env), env, false, true⟩) := by
  constructor
  · exact activationStep_skip env2 (activationStep env prev store A).prev_app
      (activationStep env prev store A).store A
      (activationStep_prev_app env prev store A)
  · intro hS h
    exact activationStep_of_miss env prev store A h hS

/-- Witness for C2: a first-ever activation of `A` populates the store
from the current source with no switch call, and the immediate
re-activation of `A` is a complete no-op. -/
theorem activation_idem_unknown_witness :
    (activationStep ⟨"D", [], none⟩
        (activationStep ⟨"C", [], none⟩ none InputSourceState.new "A").prev_app
        (activationStep ⟨"C", [], none⟩ none InputSourceState.new "A").store "A"
      = ⟨(activationStep ⟨"C", [], none⟩ none InputSourceState.new "A").prev_app,
         (activationStep ⟨"C", [], none⟩ none InputSourceState.new "A").store,
         ⟨"D", [], none⟩, false, false⟩) ∧
    (activationStep ⟨"C", [], none⟩ none InputSourceState.new "A"
      = ⟨some "A", InputSourceState.new.save "A" (input_source ⟨"C", [], none⟩),
         ⟨"C", [], none⟩, false, true⟩) :=
  ⟨(activation_idem_unknown ⟨"C", [], none⟩ ⟨"D", [], none⟩ none
      InputSourceState.new "A").1,
   (activation_idem_unknown ⟨"C", [], none⟩ ⟨"D", [], none⟩ none
      InputSourceState.new "A").2 rfl (by decide)⟩

/-- C3: the change-stream consumer discards a source equal to its
last-seen value without writing; otherwise it records the source as
last-seen, resolves the foreground app afresh from the environment,
discards on resolution failure, and writes `State[current_app] = S` on
success. -/
theorem changeStep_consumer_cases (env : Env) (prev : Option String)
    (store : InputSourceState) (S : String) :
    (prev = some S → changeStep env prev store S = ⟨prev, store, false⟩) ∧
    (prev ≠ some S → bundle_id_from_current_app env = none →
      changeStep env prev store S = ⟨some S, store, false⟩) ∧
    (∀ a, prev ≠ some S → bundle_id_from_current_app env = some a →
      changeStep env prev store S = ⟨some S, store.save a S, true⟩) := by
  refine ⟨fun h => ?_, fun h hf => ?_, fun a h hf => ?_⟩
  · simp [changeStep, h]
  · simp [changeStep, h, hf]
  · simp [changeStep, h, hf]

/-- C4 counterexample: after a controller-issued switch to `S` performed
by the activation path (no store write, `set_input_source` actually
selected), the corresponding change notification for `S` arriving with
`prev_src = None` is NOT suppressed as a duplicate: the change-stream
consumer performs a store write. -/
theorem no_feedback_loop_cex :
    (activationStep ⟨"C", ["C", "S"], some "A"⟩ none [("A", "S")] "A").storeWritten
        = false ∧
    (activationStep ⟨"C", ["C", "S"], some "A"⟩ none [("A", "S")] "A").switchCalled
        = true ∧
    input_source (activationStep ⟨"C", ["C", "S"], some "A"⟩ none
        [("A", "S")] "A").env = "S" ∧
    (changeStep (activationStep ⟨"C", ["C", "S"], some "A"⟩ none
          [("A", "S")] "A").env none
        (activationStep ⟨"C", ["C", "S"], some "A"⟩ none [("A", "S")] "A").store
        (input_source (activationStep ⟨"C", ["C", "S"], some "A"⟩ none
          [("A", "S")] "A").env)).storeWritten = true := by
  decide

/-- C4 amended: a controller-issued `set_input_source(S)` that succeeds
for app `A`, followed by the native "changed to S" notification, never
changes the state-store mapping beyond what the activation path left: if
the change stream's `prev_src` already equals `Some S` the notification
is suppressed outright, and otherwise the write it performs stores `S`
for the still-foreground app `A`, whose entry is already `S`, so every
lookup is unchanged. -/
theorem no_feedback_loop_amended (env : Env) (prev prevSrc : Option String)
    (store : InputSourceState) (A S : String)
    (hprev : prev ≠ some A) (hload : store.load A = some S)
    (hok : (set_input_source env S).ok = true)
    (hfront : env.frontApp = some A) (k : String) :
    (changeStep (activationStep env prev store A).env prevSrc
        (activationStep env prev store A).store
        (input_source (activationStep env prev store A).env)).store.load k
      = (activationStep env prev store A).store.load k := by
  have hr := activationStep_of_hit_ok env prev store A S hprev hload hok
  rw [hr]
  have hcur : input_source (set_input_source env S).env = S :=
    set_input_source_ok_current env S hok
  have hfr : (set_input_source env S).env.frontApp = some A := by
    rw [set_input_source_frontApp]; exact hfront
  rw [hcur]
  unfold changeStep
  by_cases hp : prevSrc = some S
  · rw [if_pos hp]
  · rw [if_neg hp]
    simp only [bundle_id_from_current_app, hfr]
    by_cases hk : k = A
    · subst hk
      rw [InputSourceState.load_save_self]
      exact hload.symm
    · exact InputSourceState.load_save_other store A S k hk

/-- Witness for C4 amended, at the counterexample's own input: the write
the change stream performs there is value-redundant, leaving the entry of
app `A` unchanged. -/
theorem no_feedback_loop_amended_witness :
    (changeStep (activationStep ⟨"C", ["C", "S"], some "A"⟩ none
          [("A", "S")] "A").env none
        (activationStep ⟨"C", ["C", "S"], some "A"⟩ none [("A", "S")] "A").store
        (input_source (activationStep ⟨"C", ["C", "S"], some "A"⟩ none
          [("A", "S")] "A").env)).store.load "A"
      = (activationStep ⟨"C", ["C", "S"], some "A"⟩ none
          [("A", "S")] "A").store.load "A" :=
  no_feedback_loop_amended ⟨"C", ["C", "S"], some "A"⟩ none none [("A", "S")]
    "A" "S" (by decide) rfl (by decide) rfl "A"

/-- Witness for C3: the spec scenario — a change to
`com.apple.keylayout.German` while the foreground app is `com.b` with no
prior entry yields `State[com.b] = com.apple.keylayout.German`. -/
theorem changeStep_consumer_cases_witness :
    (changeStep ⟨"com.apple.keylayout.German", [], some "com.b"⟩ none
        InputSourceState.new "com.apple.keylayout.German"
      = ⟨some "com.apple.keylayout.German",
         InputSourceState.new.save "com.b" "com.apple.keylayout.German", true⟩) ∧
    (InputSourceState.new.save "com.b" "com.apple.keylayout.German").load "com.b"
      = some "com.apple.keylayout.German" :=
  ⟨(changeStep_consumer_cases ⟨"com.apple.keylayout.German", [], some "com.b"⟩
      none InputSourceState.new "com.apple.keylayout.German").2.2 "com.b"
      (by decide) rfl,
   by decide⟩

theorem mem_foldl_erase (l : List String) (s : Finset String) (x : String) :
    x ∈ l.foldl (fun acc id => acc.erase id) s ↔ x ∈ s ∧ x ∉ l := by
  induction l generalizing s with
  | nil => simp
  | cons a t ih =>
    rw [List.foldl_cons, ih]
    simp only [Finset.mem_erase, List.mem_cons]
    constructor
    · rintro ⟨⟨hxa, hxs⟩, hxt⟩
      exact ⟨hxs, fun h => h.elim hxa hxt⟩
    · rintro ⟨hxs, hn⟩
      exact ⟨⟨fun h => hn (Or.inl h), hxs⟩, fun h => hn (Or.inr h)⟩

/-- C9: the allowed-app set built by `WorkspaceObserver::new` never
contains any of the four excluded system app ids, whatever the caller
passes in `allowed_app_ids`: the denylist removal runs after the caller's
entries and the popup-only allowlist have been merged, so it takes
priority. -/
theorem excluded_never_allowed (allowed_app_ids : List String) (id : String)
    (h : id ∈ WorkspaceObserver.EXCLUDED_APP_IDS) :
    id ∉ WorkspaceObserver.mkAllowedAppIds allowed_app_ids := by
  intro hmem
  unfold WorkspaceObserver.mkAllowedAppIds at hmem
  exact ((mem_foldl_erase _ _ _).mp hmem).2 h

/-- Witness for C9: even a caller list that explicitly includes
`com.apple.dock` does not make it allowed. -/
theorem excluded_never_allowed_witness :
    "com.apple.dock" ∉ WorkspaceObserver.mkAllowedAppIds
      ["com.apple.dock", "org.mozilla.firefox"] :=
  excluded_never_allowed ["com.apple.dock", "org.mozilla.firefox"]
    "com.apple.dock" (by decide)

/-- C5 counterexample: with one windowed, allowed pid whose observer
creation fails, the reconciled observer set after `update` is empty and
does not equal `windowed ∩ allowed`. -/
theorem workspace_churn_cex :
    WorkspaceObserver.update (fun _ => false) {"a"} ∅ [(1, some "a")] [1]
      ≠ WorkspaceObserver.window_change_pids {"a"} [(1, some "a")] [1] := by
  decide

/-- C5 amended: after any recomputation (from an arbitrary previously
observed set, hence after any sequence of recomputations), the observer
set is contained in the target set `windowed ∩ allowed` — so no observer
survives for a pid outside the target, and the pid-keyed map holds at
most one observer per pid — and it equals the target exactly when every
attempted observer creation succeeds. -/
theorem workspace_churn_amended (canObserve : Int → Bool)
    (allowed : Finset String) (children : Finset Int)
    (running_apps : List (Int × Option String)) (windowed_pids : List Int) :
    WorkspaceObserver.update canObserve allowed children running_apps
        windowed_pids
      ⊆ WorkspaceObserver.window_change_pids allowed running_apps
          windowed_pids ∧
    ((∀ p ∈ WorkspaceObserver.window_change_pids allowed running_apps
        windowed_pids, p ∉ children → canObserve p = true) →
      WorkspaceObserver.update canObserve allowed children running_apps
          windowed_pids
        = WorkspaceObserver.window_change_pids allowed running_apps
            windowed_pids) := by
  have hsub : WorkspaceObserver.update canObserve allowed children running_apps
      windowed_pids
      ⊆ WorkspaceObserver.window_change_pids allowed running_apps
          windowed_pids := by
    intro p hp
    rcases Finset.mem_union.mp hp with h1 | h1
    · exact (Finset.mem_inter.mp h1).2
    · exact (Finset.mem_sdiff.mp (Finset.mem_filter.mp h1).1).1
  refine ⟨hsub, fun hall => Finset.Subset.antisymm hsub ?_⟩
  intro p hp
  by_cases hc : p ∈ children
  · exact Finset.mem_union_left _ (Finset.mem_inter.mpr ⟨hc, hp⟩)
  · refine Finset.mem_union_right _ (Finset.mem_filter.mpr
      ⟨Finset.mem_sdiff.mpr ⟨hp, hc⟩, ?_⟩)
    exact hall p hp hc

/-- Witness for C5 amended: when every creation succeeds, the observer
set equals the target set exactly. -/
theorem workspace_churn_amended_witness :
    WorkspaceObserver.update (fun _ => true) {"a"} ∅ [(1, some "a")] [1]
      = WorkspaceObserver.window_change_pids {"a"} [(1, some "a")] [1] :=
  (workspace_churn_amended (fun _ => true) {"a"} ∅ [(1, some "a")] [1]).2
    (fun _ _ _ => rfl)

end Clavy
